import Mathlib

/-!
Shallow embedding of `sweagent/utils/log.py`: a process-wide logging
registry with idempotent logger setup, per-thread logger naming,
deferred file handlers, and an emoji-decorated console handler.

Python machine state (the module globals `_SET_UP_LOGGERS`,
`_ADDITIONAL_HANDLERS`, `_STREAM_LEVEL`, `_FILE_LEVEL`,
`_INCLUDE_LOGGER_NAME_IN_STREAM_HANDLER`, `_THREAD_NAME_TO_LOG_SUFFIX`,
together with the `logging` module's logger dictionary) is modelled as an
explicit `LogState` record threaded through every operation.  Strings are
Lean `String`s (Python `str.upper`/`str.lower`/`str.isnumeric` are
modelled over ASCII, which covers every level name the module uses).
The `logging` root logger is never configured by this module and is
modelled as handler-less.
-/

namespace SweLog

/-- Digits-to-number reading of a string, modelling Python `int(s)` on a
string that has already passed `str.isnumeric`. -/
def natOfDigits (s : String) : Nat :=
  s.data.foldl (fun acc c => acc * 10 + (c.toNat - 48)) 0

/-- Python `str.isnumeric`: non-empty and all characters numeric
(modelled over ASCII digits). -/
def isnumericStr (s : String) : Bool :=
  !s.data.isEmpty && s.data.all Char.isDigit

/-- Python `str.upper` (ASCII model). -/
def upperStr (s : String) : String :=
  String.mk (s.data.map Char.toUpper)

/-- Python `str.lower` (ASCII model). -/
def lowerStr (s : String) : String :=
  String.mk (s.data.map Char.toLower)

/-- Python `emoji.endswith(" ")`: the last character is a space
(false on the empty string, exactly as in Python). -/
def endsWithSpace (s : String) : Bool :=
  match s.data.getLast? with
  | some c => c == ' '
  | none => false

/-- Character-list version of Python `needle in hay` (substring test):
does the needle start at the head of the haystack? -/
def startsWithL : List Char → List Char → Bool
  | [], _ => true
  | _ :: _, [] => false
  | a :: as, b :: bs => a == b && startsWithL as bs

/-- Does the needle occur anywhere in the haystack? -/
def containsSub (needle : List Char) : List Char → Bool
  | [] => startsWithL needle []
  | c :: rest => startsWithL needle (c :: rest) || containsSub needle rest

/-- Python substring test `needle in hay` on strings. -/
def containsStr (hay needle : String) : Bool :=
  containsSub needle.data hay.data

/-- Python `str.ljust`: pad on the right with spaces up to width `w`. -/
def ljustStr (s : String) (w : Nat) : String :=
  s ++ String.mk (List.replicate (w - s.length) ' ')

/-- Split a character list on the dot character (helper for the logger
name hierarchy of the `logging` module). -/
def splitDotsAux (acc : List Char) : List Char → List (List Char)
  | [] => [acc.reverse]
  | c :: rest =>
    if c == '.' then acc.reverse :: splitDotsAux [] rest
    else splitDotsAux (c :: acc) rest

/-- Join name components with dots. -/
def joinDots : List (List Char) → List Char
  | [] => []
  | [p] => p
  | p :: rest => p ++ '.' :: joinDots rest

/-- Proper dotted ancestors of a logger name, nearest first: the chain a
`logging` logger's `parent` pointers walk (the root logger, which this
module never configures, is modelled as handler-less and omitted). -/
def properAncestors (name : String) : List String :=
  let parts := splitDotsAux [] name.data
  ((List.range parts.length).drop 1).reverse.map
    (fun i => String.mk (joinDots (parts.take i)))

/-- Custom severity added by the module: `logging.TRACE = 5`. -/
def TRACE : Int := 5

/-- Canonical `logging.DEBUG`. -/
def DEBUG : Int := 10

/-- Canonical `logging.INFO`. -/
def INFO : Int := 20

/-- Canonical `logging.WARNING`. -/
def WARNING : Int := 30

/-- Canonical `logging.ERROR`. -/
def ERROR : Int := 40

/-- Canonical `logging.CRITICAL`. -/
def CRITICAL : Int := 50

/-- A level specification as accepted by `_interpret_level`:
Python `int | str | None`. -/
inductive LevelSpec where
  | none : LevelSpec
  | int : Int → LevelSpec
  | str : String → LevelSpec
deriving DecidableEq

/-- Failure of level resolution.  `_interpret_level` resolves a symbolic
name with `getattr(logging, level.upper())`, which raises
`AttributeError` for a name that is not an attribute of the `logging`
module; the spec's error taxonomy calls this `ConfigurationError`. -/
inductive LevelError where
  | attributeError : String → LevelError
deriving DecidableEq

/-- Python truthiness of a level specification: `None`, `0` and `""`
are all falsy. -/
def isFalsy : LevelSpec → Bool
  | .none => true
  | .int n => n == 0
  | .str s => s == ""

/-- A Python value that `getattr(logging, name)` can hand back to
`_interpret_level`: an integer severity, a string (such as
`logging.BASIC_FORMAT`), or the `_STYLES` dictionary (kept opaque). -/
inductive PyValue where
  | int : Int → PyValue
  | str : String → PyValue
  | styles : PyValue
deriving DecidableEq

/-- The attributes of the `logging` module whose names survive
`level.upper()` (fully uppercase, underscores and digits allowed): the
canonical severity table (including the module's custom `TRACE`), plus
the non-level attributes `BASIC_FORMAT` (a format string) and `_STYLES`
(the style dictionary).  Any other name makes `getattr` raise
`AttributeError`. -/
def loggingAttr (s : String) : Option PyValue :=
  if s == "TRACE" then some (.int TRACE)
  else if s == "DEBUG" then some (.int DEBUG)
  else if s == "INFO" then some (.int INFO)
  else if s == "WARNING" then some (.int WARNING)
  else if s == "WARN" then some (.int WARNING)
  else if s == "ERROR" then some (.int ERROR)
  else if s == "CRITICAL" then some (.int CRITICAL)
  else if s == "FATAL" then some (.int CRITICAL)
  else if s == "NOTSET" then some (.int 0)
  else if s == "BASIC_FORMAT" then
    some (.str "%(levelname)s:%(name)s:%(message)s")
  else if s == "_STYLES" then some .styles
  else none

/-- Embedding of `_interpret_level(level, *, default)`: falsy input
returns the default, an integer is returned as is, a numeric string is
parsed, and any other string is looked up with
`getattr(logging, level.upper())`, which fails for unknown names but
returns whatever value a matching module attribute holds — for a
non-level attribute such as `BASIC_FORMAT` that value is not an
integer severity, despite the declared return type. -/
def interpret_level (level : LevelSpec) (d : Int) : Except LevelError PyValue :=
  if isFalsy level then .ok (.int d)
  else
    match level with
    | .none => .ok (.int d)
    | .int n => .ok (.int n)
    | .str s =>
      if isnumericStr s then .ok (.int (Int.ofNat (natOfDigits s)))
      else
        match loggingAttr (upperStr s) with
        | some v => .ok v
        | Option.none => .error (.attributeError (upperStr s))

/-- The `_RichHandlerWithEmoji.__init__` emoji normalisation:
`if not emoji.endswith(" "): emoji += " "`. -/
def initEmoji (emoji : String) : String :=
  if endsWithSpace emoji then emoji else emoji ++ " "

/-- The `get_level_text` method: the rendered text
`(self.emoji + level_name).ljust(10)` together with its style key
`"logging.level." + level_name.lower()`.  `selfEmoji` is the emoji as
stored by `__init__` (already normalised). -/
def get_level_text (selfEmoji levelName : String) : String × String :=
  (ljustStr (selfEmoji ++ levelName) 10, "logging.level." ++ lowerStr levelName)

/-- The label text produced for a record by a handler constructed with
constructor argument `emoji`: `__init__` normalisation followed by
`get_level_text`. -/
def renderLevelLabel (emoji levelName : String) : String :=
  (get_level_text (initEmoji emoji) levelName).1

/-- A file handler produced by `add_file_handler`: its `my_filter`
attribute and its level (its fixed format string
`"%(asctime)s - %(levelname)s - %(name)s - %(message)s"` carries no
state and is not modelled). -/
structure FileHandler where
  my_filter : String
  level : Int
deriving DecidableEq

/-- A `_RichHandlerWithEmoji` console handler: the stored (normalised)
emoji, the level set by `handler.setLevel`, the `show_time` flag, and
whether `_add_logger_name_to_stream_handler` has installed the
name-prefixing formatter `"[%(name)s] %(message)s"`. -/
structure ConsoleHandler where
  emoji : String
  level : Int
  show_time : Bool
  nameInFormat : Bool
deriving DecidableEq

/-- A handler attached to a logger. -/
inductive Handler where
  | console : ConsoleHandler → Handler
  | file : FileHandler → Handler
deriving DecidableEq

/-- The per-logger state of a `logging.Logger` object that this module
reads or writes: its handler list, its own level, and its `propagate`
flag. -/
structure Logger where
  handlers : List Handler
  level : Int
  propagate : Bool
deriving DecidableEq

/-- A freshly created `logging.Logger`: no handlers, level `NOTSET`
(0), propagation enabled. -/
def freshLogger : Logger :=
  { handlers := [], level := 0, propagate := true }

/-- `_add_logger_name_to_stream_handler` on a single handler: install
the name formatter on a `_RichHandlerWithEmoji`, leave others alone. -/
def fmtH : Handler → Handler
  | .console c => .console { c with nameInFormat := true }
  | .file f => .file f

/-- `_add_logger_name_to_stream_handler(logger)`: reformat every
console handler of the logger. -/
def applyNameFmt (lg : Logger) : Logger :=
  { lg with handlers := lg.handlers.map fmtH }

/-- The levels of the console handlers in a handler list, in order. -/
def consoleLevels : List Handler → List Int
  | [] => []
  | .console c :: rest => c.level :: consoleLevels rest
  | .file _ :: rest => consoleLevels rest

/-- The file handlers in a handler list, in order. -/
def fileHandlersOf : List Handler → List FileHandler
  | [] => []
  | .console _ :: rest => fileHandlersOf rest
  | .file f :: rest => f :: fileHandlersOf rest

/-- Association-list lookup (string-keyed dictionary). -/
def alookup {α : Type} : List (String × α) → String → Option α
  | [], _ => Option.none
  | (k, v) :: rest, n => if k == n then some v else alookup rest n

/-- Association-list assignment: replace the value at a key, appending
a new entry if the key is absent (Python dictionary assignment). -/
def aset {α : Type} : List (String × α) → String → α → List (String × α)
  | [], n, v => [(n, v)]
  | (k, w) :: rest, n, v =>
    if k == n then (n, v) :: rest else (k, w) :: aset rest n v

/-- Add a string to a set modelled as a duplicate-free list
(`_SET_UP_LOGGERS.add(name)`). -/
def addToSet (l : List String) (n : String) : List String :=
  if n ∈ l then l else l ++ [n]

/-- The complete mutable state of the module: the `logging` module's
logger dictionary plus the module globals. -/
structure LogState where
  loggers : List (String × Logger)
  setUpLoggers : List String
  additionalHandlers : List FileHandler
  streamLevel : Int
  fileLevel : Int
  includeLoggerName : Bool
  logTimeEnv : Bool
  threadSuffix : List (String × String)
deriving DecidableEq

/-- The logger object `logging.getLogger(n)` hands back, reading the
dictionary (a fresh logger if the name is not yet registered). -/
def getLoggerObj (st : LogState) (n : String) : Logger :=
  (alookup st.loggers n).getD freshLogger

/-- Handler list of the logger registered under a name in a raw logger
dictionary. -/
def handlersOfA (ls : List (String × Logger)) (n : String) : List Handler :=
  ((alookup ls n).getD freshLogger).handlers

/-- Handler list of the logger registered under a name. -/
def loggerHandlers (st : LogState) (n : String) : List Handler :=
  handlersOfA st.loggers n

/-- `logging.getLogger(n)`'s side effect: register a fresh logger under
the name if none exists yet. -/
def ensureLogger (st : LogState) (n : String) : LogState :=
  match alookup st.loggers n with
  | some _ => st
  | Option.none => { st with loggers := aset st.loggers n freshLogger }

/-- The loop of `logging.Logger.hasHandlers`: walk the logger and its
existing dotted ancestors; stop with `true` at the first logger with
handlers, with `false` at a handler-less logger with `propagate`
disabled. -/
def hasHandlersAux (st : LogState) : List String → Bool
  | [] => false
  | n :: rest =>
    match alookup st.loggers n with
    | Option.none => hasHandlersAux st rest
    | some lg =>
      if lg.handlers.isEmpty = false then true
      else if lg.propagate = false then false
      else hasHandlersAux st rest

/-- `logger.hasHandlers()` for the logger named `n`. -/
def hasHandlers (st : LogState) (n : String) : Bool :=
  hasHandlersAux st (n :: properAncestors n)

/-- The effective logger name computed at the top of `get_logger`:
a non-main thread appends `"-" + suffix`, where the suffix is the one
registered for the thread, falling back to the thread's own name. -/
def effName (st : LogState) (threadName baseName : String) : String :=
  if threadName = "MainThread" then baseName
  else baseName ++ "-" ++ ((alookup st.threadSuffix threadName).getD threadName)

/-- The logger object as it stands at the end of `get_logger`'s setup
branch: console handler built with the normalised emoji and the stream
threshold, logger level `min(_STREAM_LEVEL, _FILE_LEVEL)`, propagation
disabled, every matching handler of `_ADDITIONAL_HANDLERS` attached
(`getattr(handler, "my_filter", "") in name`), and the name formatter
applied when `_INCLUDE_LOGGER_NAME_IN_STREAM_HANDLER` is set. -/
def setupLogger (st1 : LogState) (name emoji : String) : Logger :=
  let lg0 := getLoggerObj st1 name
  let lg2 : Logger :=
    { level := min st1.streamLevel st1.fileLevel,
      propagate := false,
      handlers :=
        (lg0.handlers ++
          [Handler.console
            { emoji := initEmoji emoji, level := st1.streamLevel,
              show_time := st1.logTimeEnv, nameInFormat := false }]) ++
        (st1.additionalHandlers.filter
          (fun fh => containsStr name fh.my_filter)).map Handler.file }
  if st1.includeLoggerName then applyNameFmt lg2 else lg2

/-- Embedding of `get_logger(name, *, emoji="")`, called from the thread
named `threadName`: compute the effective name, create the logger
object, return it unchanged if `hasHandlers()`, otherwise run the
one-time setup and record the name in `_SET_UP_LOGGERS`.  Returns the
new state and the effective name under which the returned logger is
registered. -/
def get_logger (st : LogState) (threadName baseName emoji : String) :
    LogState × String :=
  let name := effName st threadName baseName
  let st1 := ensureLogger st name
  if hasHandlers st1 name then (st1, name)
  else
    ({ st1 with
        loggers := aset st1.loggers name (setupLogger st1 name emoji),
        setUpLoggers := addToSet st1.setUpLoggers name },
     name)

/-- Embedding of `register_thread_name(name)` called from the thread
named `threadName`: record the suffix for that thread. -/
def register_thread_name (st : LogState) (threadName suffix : String) :
    LogState :=
  { st with threadSuffix := aset st.threadSuffix threadName suffix }

/-- `logging.getLogger(n).addHandler(h)` on the raw logger dictionary
(every handler this module adds is a freshly constructed object, so
`addHandler`'s duplicate check never fires and it is a plain append). -/
def addHandlerA (ls : List (String × Logger)) (n : String) (h : Handler) :
    List (String × Logger) :=
  let lg := (alookup ls n).getD freshLogger
  aset ls n { lg with handlers := lg.handlers ++ [h] }

/-- The attachment loop of `add_file_handler`: for every name in
`_SET_UP_LOGGERS`, skip it when `filter and filter not in name`,
otherwise attach the handler to its logger. -/
def attachLoop (ls : List (String × Logger)) (names : List String)
    (filt : String) (h : Handler) : List (String × Logger) :=
  match names with
  | [] => ls
  | n :: rest =>
    if ¬ filt = "" ∧ containsStr n filt = false then attachLoop ls rest filt h
    else attachLoop (addHandlerA ls n h) rest filt h

/-- Errors surfaced by `add_file_handler`: the `OSError` of
`logging.FileHandler` when the path cannot be opened (the spec's
`DestinationUnavailable`), a level-resolution failure, or the
`ValueError`/`TypeError` that `Handler.setLevel`'s `_checkLevel` raises
when `_interpret_level` produced a non-integer value (a non-level
module attribute). -/
inductive LogError where
  | destinationUnavailable : LogError
  | levelError : LevelError → LogError
  | checkLevelError : PyValue → LogError
deriving DecidableEq

/-- Embedding of `add_file_handler(path, *, filter="", level)`.  The
`openOk` flag models whether `logging.FileHandler(path)` — the first
statement of the function — can open the path; on failure the error
propagates before any state is touched.  On success the handler's level
is `_interpret_level(level)` (which can itself fail, again before any
state is touched), the handler is attached to every matching
already-set-up logger, and `(handler, filter)` joins
`_ADDITIONAL_HANDLERS`.  Returns the new state and the surfaced error,
if any. -/
def add_file_handler (st : LogState) (openOk : Bool) (filt : String)
    (level : LevelSpec) : LogState × Option LogError :=
  if openOk then
    match interpret_level level DEBUG with
    | .error e => (st, some (.levelError e))
    | .ok (.int lv) =>
      let fh : FileHandler := { my_filter := filt, level := lv }
      ({ st with
          loggers := attachLoop st.loggers st.setUpLoggers filt (.file fh),
          additionalHandlers := st.additionalHandlers ++ [fh] },
       Option.none)
    | .ok v => (st, some (.checkLevelError v))
  else (st, some .destinationUnavailable)

/-- The reformat loop of `add_logger_names_to_stream_handlers`. -/
def fmtLoop (ls : List (String × Logger)) : List String →
    List (String × Logger)
  | [] => ls
  | n :: rest =>
    fmtLoop (aset ls n (applyNameFmt ((alookup ls n).getD freshLogger))) rest

/-- Embedding of `add_logger_names_to_stream_handlers()`: set the flag
and reformat the console handlers of every set-up logger. -/
def add_logger_names_to_stream_handlers (st : LogState) : LogState :=
  { st with
      includeLoggerName := true,
      loggers := fmtLoop st.loggers st.setUpLoggers }

/-- Embedding of `set_default_stream_level(level)`: a plain assignment
to the global `_STREAM_LEVEL`. -/
def set_default_stream_level (st : LogState) (level : Int) : LogState :=
  { st with streamLevel := level }

/-- The module state right after the globals are initialised with the
environment unset: stream threshold `DEBUG`, file threshold `TRACE`,
no time column, nothing configured. -/
def initialState : LogState :=
  { loggers := [], setUpLoggers := [], additionalHandlers := [],
    streamLevel := DEBUG, fileLevel := TRACE,
    includeLoggerName := false, logTimeEnv := false, threadSuffix := [] }

/-- The module state after import: module level code runs
`default_logger = get_logger("swe-agent")` on the main thread. -/
def stateAfterImport : LogState :=
  (get_logger initialState "MainThread" "swe-agent" "").1

/-- Concrete state used by witnesses: two further loggers configured on
the main thread. -/
def stW : LogState :=
  (get_logger
    ((get_logger stateAfterImport "MainThread" "svc.a" "").1)
    "MainThread" "other" "").1

lemma alookup_aset_same {α : Type} (l : List (String × α)) (n : String) (v : α) :
    alookup (aset l n v) n = some v := by
  induction l with
  | nil => simp [aset, alookup]
  | cons p rest ih =>
    obtain ⟨k, w⟩ := p
    by_cases h : k = n
    · simp [aset, alookup, h]
    · simp [aset, alookup, h, ih]

lemma alookup_aset_other {α : Type} (l : List (String × α)) (n m : String)
    (v : α) (h : m ≠ n) : alookup (aset l n v) m = alookup l m := by
  induction l with
  | nil => simp [aset, alookup, Ne.symm h]
  | cons p rest ih =>
    obtain ⟨k, w⟩ := p
    by_cases hk : k = n
    · simp [aset, alookup, hk, Ne.symm h]
    · simp [aset, alookup, hk, ih]

lemma containsStr_empty (m : String) : containsStr m "" = true := by
  unfold containsStr
  cases m.data with
  | nil => rfl
  | cons c rest => simp [containsSub, startsWithL]

lemma handlersOfA_addHandlerA_same (ls : List (String × Logger)) (n : String)
    (h : Handler) : handlersOfA (addHandlerA ls n h) n = handlersOfA ls n ++ [h] := by
  simp [handlersOfA, addHandlerA, alookup_aset_same]

lemma handlersOfA_addHandlerA_other (ls : List (String × Logger)) (n m : String)
    (h : Handler) (hnm : m ≠ n) :
    handlersOfA (addHandlerA ls n h) m = handlersOfA ls m := by
  simp [handlersOfA, addHandlerA, alookup_aset_other _ _ _ _ hnm]

lemma attachLoop_lookup (names : List String) (ls : List (String × Logger))
    (filt : String) (h : Handler) (n : String) (hnod : names.Nodup) :
    handlersOfA (attachLoop ls names filt h) n =
      if n ∈ names ∧ containsStr n filt = true then handlersOfA ls n ++ [h]
      else handlersOfA ls n := by
  induction names generalizing ls with
  | nil => simp [attachLoop]
  | cons m rest ih =>
    rw [List.nodup_cons] at hnod
    obtain ⟨hm, hrest⟩ := hnod
    by_cases hc : containsStr m filt = false
    · have hfne : ¬ filt = "" := by
        intro hf
        rw [hf, containsStr_empty m] at hc
        exact Bool.noConfusion hc
      rw [attachLoop, if_pos ⟨hfne, hc⟩, ih _ hrest]
      by_cases hn : n = m
      · subst hn
        simp [hm, hc]
      · simp [List.mem_cons, hn]
    · have hct : containsStr m filt = true := by
        revert hc; cases containsStr m filt <;> simp
      rw [attachLoop, if_neg (by simp [hct]), ih _ hrest]
      by_cases hn : n = m
      · subst hn
        simp [hm, hct, handlersOfA_addHandlerA_same]
      · simp [List.mem_cons, hn, handlersOfA_addHandlerA_other _ _ _ _ hn]

lemma ensureLogger_of_lookup (st : LogState) (n : String) (lg : Logger)
    (h : alookup st.loggers n = some lg) : ensureLogger st n = st := by
  unfold ensureLogger
  rw [h]

lemma alookup_ensureLogger_self (st : LogState) (n : String) :
    alookup (ensureLogger st n).loggers n = some (getLoggerObj st n) := by
  unfold ensureLogger getLoggerObj
  cases h : alookup st.loggers n with
  | none => simp [h, alookup_aset_same]
  | some lg => simp [h]

lemma ensureLogger_threadSuffix (st : LogState) (n : String) :
    (ensureLogger st n).threadSuffix = st.threadSuffix := by
  unfold ensureLogger
  cases alookup st.loggers n <;> rfl

lemma ensureLogger_setUpLoggers (st : LogState) (n : String) :
    (ensureLogger st n).setUpLoggers = st.setUpLoggers := by
  unfold ensureLogger
  cases alookup st.loggers n <;> rfl

lemma ensureLogger_additionalHandlers (st : LogState) (n : String) :
    (ensureLogger st n).additionalHandlers = st.additionalHandlers := by
  unfold ensureLogger
  cases alookup st.loggers n <;> rfl

lemma ensureLogger_streamLevel (st : LogState) (n : String) :
    (ensureLogger st n).streamLevel = st.streamLevel := by
  unfold ensureLogger
  cases alookup st.loggers n <;> rfl

lemma ensureLogger_fileLevel (st : LogState) (n : String) :
    (ensureLogger st n).fileLevel = st.fileLevel := by
  unfold ensureLogger
  cases alookup st.loggers n <;> rfl

lemma effName_congr (st1 st2 : LogState) (t b : String)
    (h : st1.threadSuffix = st2.threadSuffix) :
    effName st1 t b = effName st2 t b := by
  simp [effName, h]

lemma consoleLevels_append (l1 l2 : List Handler) :
    consoleLevels (l1 ++ l2) = consoleLevels l1 ++ consoleLevels l2 := by
  induction l1 with
  | nil => rfl
  | cons a rest ih => cases a <;> simp [consoleLevels, ih]

lemma fileHandlersOf_append (l1 l2 : List Handler) :
    fileHandlersOf (l1 ++ l2) = fileHandlersOf l1 ++ fileHandlersOf l2 := by
  induction l1 with
  | nil => rfl
  | cons a rest ih => cases a <;> simp [fileHandlersOf, ih]

lemma consoleLevels_map_file (l : List FileHandler) :
    consoleLevels (l.map Handler.file) = [] := by
  induction l with
  | nil => rfl
  | cons a rest ih => simp [consoleLevels, ih]

lemma fileHandlersOf_map_file (l : List FileHandler) :
    fileHandlersOf (l.map Handler.file) = l := by
  induction l with
  | nil => rfl
  | cons a rest ih => simp [fileHandlersOf, ih]

lemma map_fmtH_file (l : List FileHandler) :
    l.map (fmtH ∘ Handler.file) = l.map Handler.file := by
  induction l with
  | nil => rfl
  | cons a rest ih => simp [fmtH, ih]

lemma consoleLevels_map_fmtH (l : List Handler) :
    consoleLevels (l.map fmtH) = consoleLevels l := by
  induction l with
  | nil => rfl
  | cons a rest ih => cases a <;> simp [consoleLevels, fmtH, ih]

lemma fileHandlersOf_map_fmtH (l : List Handler) :
    fileHandlersOf (l.map fmtH) = fileHandlersOf l := by
  induction l with
  | nil => rfl
  | cons a rest ih => cases a <;> simp [fileHandlersOf, fmtH, ih]

lemma hasHandlers_true_of_lookup (st : LogState) (n : String) (lg : Logger)
    (hl : alookup st.loggers n = some lg) (hne : lg.handlers ≠ []) :
    hasHandlers st n = true := by
  unfold hasHandlers hasHandlersAux
  rw [hl]
  cases hlg : lg.handlers with
  | nil => exact absurd hlg hne
  | cons a l => simp [hlg]

lemma handlers_nil_of_hasHandlers_false (st : LogState) (n : String)
    (h : hasHandlers st n = false) : (getLoggerObj st n).handlers = [] := by
  by_contra hne
  have htrue : hasHandlers st n = true := by
    cases hl : alookup st.loggers n with
    | none =>
      exact absurd (show (getLoggerObj st n).handlers = [] by
        simp [getLoggerObj, hl, freshLogger]) hne
    | some lg =>
      apply hasHandlers_true_of_lookup st n lg hl
      intro hnil
      exact hne (by simp [getLoggerObj, hl, hnil])
  rw [htrue] at h
  exact Bool.noConfusion h

lemma setupLogger_level (st1 : LogState) (n e : String) :
    (setupLogger st1 n e).level = min st1.streamLevel st1.fileLevel := by
  unfold setupLogger
  by_cases h : st1.includeLoggerName <;> simp [h, applyNameFmt]

lemma setupLogger_propagate (st1 : LogState) (n e : String) :
    (setupLogger st1 n e).propagate = false := by
  unfold setupLogger
  by_cases h : st1.includeLoggerName <;> simp [h, applyNameFmt]

lemma setupLogger_handlers_ne_nil (st1 : LogState) (n e : String) :
    (setupLogger st1 n e).handlers ≠ [] := by
  unfold setupLogger
  by_cases h : st1.includeLoggerName <;> simp [h, applyNameFmt]

lemma consoleLevels_setupLogger (st1 : LogState) (n e : String)
    (h0 : (getLoggerObj st1 n).handlers = []) :
    consoleLevels (setupLogger st1 n e).handlers = [st1.streamLevel] := by
  unfold setupLogger
  by_cases h : st1.includeLoggerName <;>
    simp [h, applyNameFmt, h0, consoleLevels_append, consoleLevels_map_fmtH,
      consoleLevels_map_file, consoleLevels, map_fmtH_file]

lemma fileHandlersOf_setupLogger (st1 : LogState) (n e : String)
    (h0 : (getLoggerObj st1 n).handlers = []) :
    fileHandlersOf (setupLogger st1 n e).handlers =
      st1.additionalHandlers.filter (fun fh => containsStr n fh.my_filter) := by
  unfold setupLogger
  by_cases h : st1.includeLoggerName <;>
    simp [h, applyNameFmt, h0, fileHandlersOf_append, fileHandlersOf_map_fmtH,
      fileHandlersOf_map_file, fileHandlersOf, map_fmtH_file]

lemma mem_addToSet_self (l : List String) (n : String) : n ∈ addToSet l n := by
  unfold addToSet
  by_cases h : n ∈ l <;> simp [h]

lemma get_logger_setup_eq (st : LogState) (t b e : String)
    (h : hasHandlers (ensureLogger st (effName st t b)) (effName st t b) = false) :
    get_logger st t b e =
      ({ ensureLogger st (effName st t b) with
          loggers :=
            aset (ensureLogger st (effName st t b)).loggers (effName st t b)
              (setupLogger (ensureLogger st (effName st t b)) (effName st t b) e),
          setUpLoggers :=
            addToSet (ensureLogger st (effName st t b)).setUpLoggers
              (effName st t b) },
       effName st t b) := by
  simp [get_logger, h]

lemma get_logger_already_set_up (st : LogState) (t b e : String) (lg : Logger)
    (hl : alookup st.loggers (effName st t b) = some lg)
    (hne : lg.handlers ≠ []) :
    get_logger st t b e = (st, effName st t b) := by
  have hens : ensureLogger st (effName st t b) = st :=
    ensureLogger_of_lookup _ _ _ hl
  have hhh : hasHandlers st (effName st t b) = true :=
    hasHandlers_true_of_lookup _ _ _ hl hne
  simp [get_logger, hens, hhh]

lemma after_setup_lookup (st : LogState) (t b e : String)
    (h : hasHandlers (ensureLogger st (effName st t b)) (effName st t b) = false) :
    alookup ((get_logger st t b e).1).loggers (effName st t b) =
      some (setupLogger (ensureLogger st (effName st t b)) (effName st t b) e) := by
  rw [get_logger_setup_eq st t b e h]
  exact alookup_aset_same _ _ _

lemma after_setup_threadSuffix (st : LogState) (t b e : String)
    (h : hasHandlers (ensureLogger st (effName st t b)) (effName st t b) = false) :
    ((get_logger st t b e).1).threadSuffix = st.threadSuffix := by
  rw [get_logger_setup_eq st t b e h]
  exact ensureLogger_threadSuffix st _

lemma after_setup_mem_setUpLoggers (st : LogState) (t b e : String)
    (h : hasHandlers (ensureLogger st (effName st t b)) (effName st t b) = false) :
    effName st t b ∈ ((get_logger st t b e).1).setUpLoggers := by
  rw [get_logger_setup_eq st t b e h]
  exact mem_addToSet_self _ _

lemma consoleLevels_after_setup (st : LogState) (t b e : String)
    (h : hasHandlers (ensureLogger st (effName st t b)) (effName st t b) = false) :
    consoleLevels (loggerHandlers (get_logger st t b e).1 (effName st t b)) =
      [st.streamLevel] := by
  have h0 : (getLoggerObj (ensureLogger st (effName st t b)) (effName st t b)).handlers = [] :=
    handlers_nil_of_hasHandlers_false _ _ h
  simp only [loggerHandlers, handlersOfA, after_setup_lookup st t b e h, Option.getD_some]
  rw [consoleLevels_setupLogger _ _ _ h0, ensureLogger_streamLevel]

lemma fileHandlers_after_setup (st : LogState) (t b e : String)
    (h : hasHandlers (ensureLogger st (effName st t b)) (effName st t b) = false) :
    fileHandlersOf (loggerHandlers (get_logger st t b e).1 (effName st t b)) =
      st.additionalHandlers.filter
        (fun fh => containsStr (effName st t b) fh.my_filter) := by
  have h0 : (getLoggerObj (ensureLogger st (effName st t b)) (effName st t b)).handlers = [] :=
    handlers_nil_of_hasHandlers_false _ _ h
  simp only [loggerHandlers, handlersOfA, after_setup_lookup st t b e h, Option.getD_some]
  rw [fileHandlersOf_setupLogger _ _ _ h0, ensureLogger_additionalHandlers]

lemma level_after_setup (st : LogState) (t b e : String)
    (h : hasHandlers (ensureLogger st (effName st t b)) (effName st t b) = false) :
    (getLoggerObj (get_logger st t b e).1 (effName st t b)).level =
      min st.streamLevel st.fileLevel := by
  simp only [getLoggerObj, after_setup_lookup st t b e h, Option.getD_some]
  rw [setupLogger_level, ensureLogger_streamLevel, ensureLogger_fileLevel]

lemma propagate_after_setup (st : LogState) (t b e : String)
    (h : hasHandlers (ensureLogger st (effName st t b)) (effName st t b) = false) :
    (getLoggerObj (get_logger st t b e).1 (effName st t b)).propagate = false := by
  simp only [getLoggerObj, after_setup_lookup st t b e h, Option.getD_some]
  exact setupLogger_propagate _ _ _

lemma ljustStr_length (s : String) (w : Nat) :
    (ljustStr s w).length = max s.length w := by
  have hrep : (String.mk (List.replicate (w - s.length) ' ')).length = w - s.length := by
    show (List.replicate (w - s.length) ' ').length = w - s.length
    simp
  have happ : (ljustStr s w).length = s.length + (w - s.length) := by
    rw [ljustStr, String.length_append, hrep]
  rw [happ]
  omega

/-- C1: GetLogger is idempotent: after a first `get_logger` call that ran
the one-time setup (attaching the console handler), a second call with
the same thread and base name returns the state unchanged together with
the same effective name, and the logger carries exactly one console
handler, never two. -/
theorem get_logger_idempotent (st : LogState) (t base e1 e2 : String)
    (h : hasHandlers (ensureLogger st (effName st t base)) (effName st t base) = false) :
    get_logger ((get_logger st t base e1).1) t base e2 =
      ((get_logger st t base e1).1, effName st t base) ∧
    (consoleLevels
      (loggerHandlers (get_logger st t base e1).1 (effName st t base))).length = 1 := by
  set n := effName st t base with hn
  have heff : effName ((get_logger st t base e1).1) t base = n := by
    rw [hn]
    exact effName_congr _ _ _ _ (after_setup_threadSuffix st t base e1 h)
  have hlook : alookup ((get_logger st t base e1).1).loggers n =
      some (setupLogger (ensureLogger st n) n e1) :=
    after_setup_lookup st t base e1 h
  constructor
  · have hsecond := get_logger_already_set_up ((get_logger st t base e1).1) t base e2
      (setupLogger (ensureLogger st n) n e1)
      (by rw [heff]; exact hlook)
      (setupLogger_handlers_ne_nil _ _ _)
    rw [heff] at hsecond
    exact hsecond
  · rw [consoleLevels_after_setup st t base e1 h]
    rfl

/-- Witness for C1: a fresh name on the witness state. -/
theorem get_logger_idempotent_witness :
    hasHandlers (ensureLogger stW (effName stW "MainThread" "api"))
      (effName stW "MainThread" "api") = false ∧
    get_logger ((get_logger stW "MainThread" "api" "x").1) "MainThread" "api" "" =
      ((get_logger stW "MainThread" "api" "x").1, effName stW "MainThread" "api") ∧
    (consoleLevels
      (loggerHandlers (get_logger stW "MainThread" "api" "x").1
        (effName stW "MainThread" "api"))).length = 1 :=
  ⟨by decide,
    (get_logger_idempotent stW "MainThread" "api" "x" "" (by decide)).1,
    (get_logger_idempotent stW "MainThread" "api" "x" "" (by decide)).2⟩

/-- C2 counterexample: the name "basic_format" is symbolic, non-numeric
and not in the canonical severity table, yet `_interpret_level` does
not fail on it: `getattr(logging, "BASIC_FORMAT")` returns the
`BASIC_FORMAT` format string, so a value — not even an integer — is
returned where the claim demands a `ConfigurationError`. -/
theorem interpret_level_nonlevel_attr_counterexample :
    isnumericStr "basic_format" = false ∧
    interpret_level (.str "basic_format") 7 =
      .ok (.str "%(levelname)s:%(name)s:%(message)s") ∧
    interpret_level (.str "basic_format") 7 ≠
      .error (.attributeError (upperStr "basic_format")) :=
  ⟨by decide, rfl, fun h => Except.noConfusion h⟩

/-- C2 (amended): a numeric string parses as its integer, a canonical
symbolic name resolves to its table value, an absent level yields the
default, and a non-numeric non-empty name whose uppercase form is not
an attribute of the `logging` module fails with an error (the
`AttributeError` of `getattr`, the spec's `ConfigurationError`);
however, a name whose uppercase form is a non-level module attribute —
such as "basic_format" — returns that attribute's value instead of
failing. -/
theorem interpret_level_resolution (d : Int) (s : String)
    (hnum : isnumericStr s = false) (hne : s ≠ "")
    (htab : loggingAttr (upperStr s) = Option.none) :
    interpret_level (.str "5") d = .ok (.int 5) ∧
    interpret_level (.str "DEBUG") d = .ok (.int DEBUG) ∧
    interpret_level .none d = .ok (.int d) ∧
    interpret_level (.str "basic_format") d =
      .ok (.str "%(levelname)s:%(name)s:%(message)s") ∧
    interpret_level (.str s) d = .error (.attributeError (upperStr s)) := by
  refine ⟨rfl, rfl, rfl, rfl, ?_⟩
  simp [interpret_level, isFalsy, hnum, hne, htab]

/-- Witness for C2 at the unknown name of the claim. -/
theorem interpret_level_resolution_witness :
    (isnumericStr "bogus" = false ∧ "bogus" ≠ "" ∧
      loggingAttr (upperStr "bogus") = Option.none) ∧
    (interpret_level (.str "5") 7 = .ok (.int 5) ∧
      interpret_level (.str "DEBUG") 7 = .ok (.int DEBUG) ∧
      interpret_level .none 7 = .ok (.int 7) ∧
      interpret_level (.str "basic_format") 7 =
        .ok (.str "%(levelname)s:%(name)s:%(message)s") ∧
      interpret_level (.str "bogus") 7 =
        .error (.attributeError (upperStr "bogus"))) :=
  ⟨⟨by decide, by decide, by decide⟩,
    interpret_level_resolution 7 "bogus" (by decide) (by decide) (by decide)⟩

/-- C3 counterexample: with the default empty emoji the rendered label
is NOT the bare level name padded to width 10: Python `"".endswith(" ")`
is false, so `__init__` appends a space even to the empty emoji and the
label carries a leading space; moreover an emoji ending in a tab (a
whitespace character that is not the space character) also receives an
appended space. -/
theorem level_label_empty_emoji_counterexample :
    renderLevelLabel "" "INFO" ≠ ljustStr "INFO" 10 ∧
    renderLevelLabel "" "INFO" = " INFO     " ∧
    renderLevelLabel "x\t" "INFO" = ljustStr "x\t INFO" 10 :=
  ⟨by decide, by decide, by decide⟩

/-- C3 (amended): for every record the console severity label is
emoji + levelName left-justified to width 10, where a trailing space is
appended to the emoji exactly when it does not already end in the space
character — including when the emoji is empty (so the default label is
a single space followed by the level name) — and the style key is
derived from the lowercased level name. -/
theorem level_label_rendering (emoji levelName : String) :
    renderLevelLabel emoji levelName =
      ljustStr ((if endsWithSpace emoji then emoji else emoji ++ " ") ++ levelName) 10 ∧
    renderLevelLabel "" levelName = ljustStr (" " ++ levelName) 10 ∧
    (get_level_text (initEmoji emoji) levelName).2 =
      "logging.level." ++ lowerStr levelName ∧
    (renderLevelLabel emoji levelName).length =
      max (initEmoji emoji ++ levelName).length 10 := by
  refine ⟨rfl, rfl, rfl, ?_⟩
  exact ljustStr_length _ _

/-- C4: the code contradicts the lower-only contract stated by the spec
and by its own docstring: `set_default_stream_level` is a plain
assignment, so calling it with a level above the current stream
threshold raises the threshold instead of being a no-op or rejected. -/
theorem set_default_stream_level_raises :
    initialState.streamLevel = DEBUG ∧ DEBUG < WARNING ∧
    (set_default_stream_level initialState WARNING).streamLevel = WARNING ∧
    initialState.streamLevel <
      (set_default_stream_level initialState WARNING).streamLevel :=
  ⟨rfl, by decide, rfl, by decide⟩

/-- C5: thread-suffixed effective name: a non-main thread that
registered a suffix logs under baseName-suffix; an unregistered
non-main thread falls back to its own thread name; the main thread uses
the base name unchanged; and `get_logger` registers the returned logger
under the effective name. -/
theorem effective_name_thread_suffix (st : LogState) (t base b2 sfx e : String)
    (ht : t ≠ "MainThread")
    (hnone : alookup st.threadSuffix t = Option.none) :
    effName (register_thread_name st t sfx) t base = base ++ "-" ++ sfx ∧
    effName st t base = base ++ "-" ++ t ∧
    effName st "MainThread" b2 = b2 ∧
    (get_logger st t base e).2 = effName st t base := by
  refine ⟨?_, ?_, ?_, ?_⟩
  · simp [effName, register_thread_name, ht, alookup_aset_same]
  · simp [effName, ht, hnone]
  · simp [effName]
  · unfold get_logger
    by_cases h :
        hasHandlers (ensureLogger st (effName st t base)) (effName st t base) <;>
      simp [h]

/-- Witness for C5 on the witness state. -/
theorem effective_name_thread_suffix_witness :
    ("worker" ≠ "MainThread" ∧ alookup stW.threadSuffix "worker" = Option.none) ∧
    (effName (register_thread_name stW "worker" "worker-1") "worker" "svc" =
        "svc" ++ "-" ++ "worker-1" ∧
      effName stW "worker" "svc" = "svc" ++ "-" ++ "worker" ∧
      effName stW "MainThread" "core" = "core" ∧
      (get_logger stW "worker" "svc" "").2 = effName stW "worker" "svc") :=
  ⟨⟨by decide, by decide⟩,
    effective_name_thread_suffix stW "worker" "svc" "core" "worker-1" ""
      (by decide) (by decide)⟩

/-- C6: file handler filtering, immediate and deferred: on a state
whose set-up-logger set is duplicate-free, `add_file_handler` succeeds,
appends the handler to the deferred list, attaches it to exactly the
already-set-up loggers whose name contains the filter as a substring
(the empty filter matches every name), leaves every other logger
untouched, and every later `get_logger` that runs first-time setup
attaches exactly the deferred handlers whose filter is contained in the
new effective name. -/
theorem add_file_handler_filtering (st : LogState) (filt : String)
    (lvs : LevelSpec) (lv : Int) (m t base e : String)
    (hnod : st.setUpLoggers.Nodup)
    (hlv : interpret_level lvs DEBUG = .ok (.int lv)) :
    (add_file_handler st true filt lvs).2 = Option.none ∧
    ((add_file_handler st true filt lvs).1).additionalHandlers =
      st.additionalHandlers ++ [FileHandler.mk filt lv] ∧
    (m ∈ st.setUpLoggers → containsStr m filt = true →
      loggerHandlers (add_file_handler st true filt lvs).1 m =
        loggerHandlers st m ++ [Handler.file ⟨filt, lv⟩]) ∧
    (m ∉ st.setUpLoggers ∨ containsStr m filt = false →
      loggerHandlers (add_file_handler st true filt lvs).1 m =
        loggerHandlers st m) ∧
    (hasHandlers
        (ensureLogger (add_file_handler st true filt lvs).1
          (effName (add_file_handler st true filt lvs).1 t base))
        (effName (add_file_handler st true filt lvs).1 t base) = false →
      fileHandlersOf
          (loggerHandlers
            (get_logger (add_file_handler st true filt lvs).1 t base e).1
            (effName (add_file_handler st true filt lvs).1 t base)) =
        (st.additionalHandlers ++ [FileHandler.mk filt lv]).filter
          (fun fh =>
            containsStr (effName (add_file_handler st true filt lvs).1 t base)
              fh.my_filter)) := by
  have hres : add_file_handler st true filt lvs =
      ({ st with
          loggers := attachLoop st.loggers st.setUpLoggers filt (.file ⟨filt, lv⟩),
          additionalHandlers := st.additionalHandlers ++ [FileHandler.mk filt lv] },
       Option.none) := by
    simp [add_file_handler, hlv]
  refine ⟨by rw [hres], by rw [hres], ?_, ?_, ?_⟩
  · intro hm hc
    rw [hres]
    show handlersOfA (attachLoop st.loggers st.setUpLoggers filt (.file ⟨filt, lv⟩)) m =
      handlersOfA st.loggers m ++ [Handler.file ⟨filt, lv⟩]
    rw [attachLoop_lookup _ _ _ _ _ hnod, if_pos ⟨hm, hc⟩]
  · intro hor
    rw [hres]
    show handlersOfA (attachLoop st.loggers st.setUpLoggers filt (.file ⟨filt, lv⟩)) m =
      handlersOfA st.loggers m
    rw [attachLoop_lookup _ _ _ _ _ hnod, if_neg]
    rintro ⟨hm, hc⟩
    rcases hor with hout | hcf
    · exact hout hm
    · rw [hcf] at hc
      exact Bool.noConfusion hc
  · intro hsetup
    rw [fileHandlers_after_setup _ t base e hsetup]
    rw [hres]

/-- Witness for C6: after configuring svc.a and other,
add_file_handler with filter svc.a attaches immediately to svc.a and a
later get_logger for svc.alpha (whose name contains svc.a) receives it
during setup. -/
theorem add_file_handler_filtering_witness :
    (stW.setUpLoggers.Nodup ∧ interpret_level (.int 20) DEBUG = .ok (.int 20)) ∧
    loggerHandlers (add_file_handler stW true "svc.a" (.int 20)).1 "svc.a" =
      loggerHandlers stW "svc.a" ++ [Handler.file ⟨"svc.a", 20⟩] ∧
    loggerHandlers (add_file_handler stW true "svc.a" (.int 20)).1 "other" =
      loggerHandlers stW "other" ∧
    fileHandlersOf
        (loggerHandlers
          (get_logger (add_file_handler stW true "svc.a" (.int 20)).1
            "MainThread" "svc.alpha" "").1
          (effName (add_file_handler stW true "svc.a" (.int 20)).1
            "MainThread" "svc.alpha")) =
      (stW.additionalHandlers ++ [FileHandler.mk "svc.a" 20]).filter
        (fun fh =>
          containsStr
            (effName (add_file_handler stW true "svc.a" (.int 20)).1
              "MainThread" "svc.alpha")
            fh.my_filter) :=
  ⟨⟨by decide, rfl⟩,
    (add_file_handler_filtering stW "svc.a" (.int 20) 20 "svc.a" "MainThread"
      "svc.alpha" "" (by decide) rfl).2.2.1 (by decide) (by decide),
    (add_file_handler_filtering stW "svc.a" (.int 20) 20 "other" "MainThread"
      "svc.alpha" "" (by decide) rfl).2.2.2.1 (Or.inr (by decide)),
    (add_file_handler_filtering stW "svc.a" (.int 20) 20 "svc.a" "MainThread"
      "svc.alpha" "" (by decide) rfl).2.2.2.2 (by decide)⟩

/-- C7: AddFileHandler error atomicity: when the destination cannot be
opened (the very first statement, `logging.FileHandler(path)`, raises),
the error is surfaced to the caller and the state — every logger's
handler list and the deferred handler list — is returned unchanged. -/
theorem add_file_handler_error_atomic (st : LogState) (filt : String)
    (level : LevelSpec) :
    add_file_handler st false filt level =
      (st, some LogError.destinationUnavailable) := rfl

/-- C8: get_logger setup postcondition: on first-time setup the logger's
own level is min(streamLevel, fileLevel), its single console handler
filters at the current stream threshold, propagation is disabled, and
the effective name is recorded among the set-up loggers. -/
theorem get_logger_setup_postcondition (st : LogState) (t base e : String)
    (h : hasHandlers (ensureLogger st (effName st t base)) (effName st t base) = false) :
    (getLoggerObj (get_logger st t base e).1 (effName st t base)).level =
      min st.streamLevel st.fileLevel ∧
    consoleLevels (loggerHandlers (get_logger st t base e).1 (effName st t base)) =
      [st.streamLevel] ∧
    (getLoggerObj (get_logger st t base e).1 (effName st t base)).propagate = false ∧
    effName st t base ∈ ((get_logger st t base e).1).setUpLoggers :=
  ⟨level_after_setup st t base e h,
    consoleLevels_after_setup st t base e h,
    propagate_after_setup st t base e h,
    after_setup_mem_setUpLoggers st t base e h⟩

/-- Witness for C8: first-time setup of a fresh name on the witness
state. -/
theorem get_logger_setup_postcondition_witness :
    hasHandlers (ensureLogger stW (effName stW "MainThread" "env"))
      (effName stW "MainThread" "env") = false ∧
    ((getLoggerObj (get_logger stW "MainThread" "env" "").1
        (effName stW "MainThread" "env")).level =
      min stW.streamLevel stW.fileLevel ∧
    consoleLevels
        (loggerHandlers (get_logger stW "MainThread" "env" "").1
          (effName stW "MainThread" "env")) = [stW.streamLevel] ∧
    (getLoggerObj (get_logger stW "MainThread" "env" "").1
        (effName stW "MainThread" "env")).propagate = false ∧
    effName stW "MainThread" "env" ∈
      ((get_logger stW "MainThread" "env" "").1).setUpLoggers) :=
  ⟨by decide, get_logger_setup_postcondition stW "MainThread" "env" "" (by decide)⟩

/-- C9: set_default_stream_level frame property: the call leaves every
existing logger — in particular the level of every console handler
already attached — unchanged, and a console handler created by a later
first-time `get_logger` filters at the new threshold. -/
theorem set_default_stream_level_frame (st : LogState) (L : Int)
    (t base e : String)
    (h : hasHandlers
        (ensureLogger (set_default_stream_level st L)
          (effName (set_default_stream_level st L) t base))
        (effName (set_default_stream_level st L) t base) = false) :
    (set_default_stream_level st L).loggers = st.loggers ∧
    consoleLevels
        (loggerHandlers (get_logger (set_default_stream_level st L) t base e).1
          (effName (set_default_stream_level st L) t base)) = [L] :=
  ⟨rfl, consoleLevels_after_setup (set_default_stream_level st L) t base e h⟩

/-- Witness for C9: lowering the threshold to TRACE on the witness
state, then configuring a fresh logger. -/
theorem set_default_stream_level_frame_witness :
    hasHandlers
        (ensureLogger (set_default_stream_level stW TRACE)
          (effName (set_default_stream_level stW TRACE) "MainThread" "fresh"))
        (effName (set_default_stream_level stW TRACE) "MainThread" "fresh") =
      false ∧
    ((set_default_stream_level stW TRACE).loggers = stW.loggers ∧
      consoleLevels
          (loggerHandlers
            (get_logger (set_default_stream_level stW TRACE) "MainThread"
              "fresh" "").1
            (effName (set_default_stream_level stW TRACE) "MainThread"
              "fresh")) = [TRACE]) :=
  ⟨by decide,
    set_default_stream_level_frame stW TRACE "MainThread" "fresh" "" (by decide)⟩

/-- C10 counterexample: NOTSET can in fact be selected explicitly: the
numeric string "0" resolves to 0 through the `isnumeric` path, and the
symbolic name "notset" resolves to `logging.NOTSET` = 0 through
`getattr` — neither is replaced by the default (7 here). -/
theorem notset_explicit_selection_counterexample :
    interpret_level (.str "0") 7 = .ok (.int 0) ∧
    interpret_level (.str "notset") 7 = .ok (.int 0) ∧
    (7 : Int) ≠ 0 :=
  ⟨rfl, rfl, by decide⟩

/-- C10 (amended): level resolution treats every falsy specification as
absent: the integer 0 (NOTSET) and the empty string both resolve to the
default, so the integer literal 0 is silently replaced; NOTSET can
nevertheless still be selected explicitly, through the numeric string
"0" or the symbolic name "notset". -/
theorem interpret_level_falsy_default (d : Int) :
    interpret_level (.int 0) d = .ok (.int d) ∧
    interpret_level (.str "") d = .ok (.int d) ∧
    interpret_level (.str "0") d = .ok (.int 0) ∧
    interpret_level (.str "notset") d = .ok (.int 0) :=
  ⟨rfl, rfl, rfl, rfl⟩

end SweLog
